import Mathlib

/-!
# Blockchain File Integrity Registry: the React front end

A shallow embedding of `frontend/src/App.jsx` and `frontend/src/api.js`.

* The component state (every `useState` cell of `App`) together with the one
  `localStorage` key the program uses is a record `State`.
* Every handler is a function `Server → State → State`.  `Server` fixes the answer of
  the back end to each request the handler may issue; every handler issues each
  endpoint at most once.  An `await` is the point where the answer is read.
* HTTP traffic is recorded in the ghost field `State.sent`, so that "no request is
  sent" is a statement about the state.
* The cached credit balance is a finite JavaScript number, kept as the rational it
  denotes; the one arithmetic step of the program, `prev - 1`, is rounded as a double
  (`toDouble`).
* Handlers run to completion, one after the other.  The only place where the source
  starts an asynchronous call without awaiting it is the start-up effect; its
  interleaving is modelled explicitly (`fetchMeRequest`, then the rest of the effect,
  then `fetchMeResume`).
-/

namespace FileRegistry

/-! ## Values -/

/-- The JavaScript values that reach a truthiness test or a JSX child position in the
verification panel.  Numbers are integers; floating point is outside the model. -/
inductive JsVal where
  | undefined
  | null
  | bool (b : Bool)
  | num (n : Int)
  | str (s : String)
  deriving DecidableEq, Repr

/-- JavaScript `ToBoolean`. -/
def JsVal.truthy : JsVal → Bool
  | .undefined => false
  | .null => false
  | .bool b => b
  | .num n => n != 0
  | .str s => s != ""

/-- `page` holds one of the three literals the program ever passes to `setPage`. -/
inductive Page where
  | login
  | register
  | dashboard
  deriving DecidableEq, Repr

/-- A `File` picked in an `<input type="file">`. -/
structure File where
  name : String
  content : String
  deriving DecidableEq, Repr

/-- Body of `GET /me`.  `credits` is a finite JavaScript number, that is a double, kept
as the rational it denotes, or `none` for JavaScript `null`. -/
structure MeBody where
  email : String
  credits : Option ℚ
  deriving DecidableEq, Repr

/-- One element of the body of `GET /files`. -/
structure FileRecord where
  id : Int
  filename : String
  file_hash : String
  tx_hash : String
  block_number : Int
  metadata : String
  created_at : String
  deriving DecidableEq, Repr

/-- Body of `POST /auth/login`. -/
structure LoginBody where
  access_token : String
  deriving DecidableEq, Repr

/-- Body of `POST /files/register`. -/
structure RegResult where
  filename : String
  file_hash : String
  tx_hash : String
  block_number : Int
  deriving DecidableEq, Repr

/-- The `record` object of a verification result. -/
structure VerRecord where
  owner : String
  timestamp_iso : String
  metadata : String
  deriving DecidableEq, Repr

/-- Body of `POST /files/verify`.  `on_chain` and `match_` (the field `match`) are only
ever tested for truthiness or placed in JSX, so they are kept as raw values;
`record = none` stands for an absent or `null` record. -/
structure VerResult where
  filename : String
  file_hash : String
  on_chain : JsVal
  match_ : JsVal
  record : Option VerRecord
  deriving DecidableEq, Repr

/-- A rejected request, as seen in a `catch (e)` block: `status` is the HTTP status
(`none` when there was no response at all) and `detail` is `e.response?.data?.detail`
(`none` when any link of the chain is missing). -/
structure ApiError where
  status : Option Nat
  detail : Option String
  deriving DecidableEq, Repr

/-- Outcome of one awaited request. -/
inductive Resp (α : Type) where
  | ok (data : α)
  | error (e : ApiError)
  deriving DecidableEq, Repr

/-- Whether the awaited promise resolved. -/
def Resp.isOk {α : Type} : Resp α → Bool
  | .ok _ => true
  | .error _ => false

/-- The answers of the back end during one handler run. -/
structure Server where
  authRegister : Resp Unit
  authLogin : Resp LoginBody
  me : Resp MeBody
  files : Resp (List FileRecord)
  filesRegister : Resp RegResult
  filesVerify : Resp VerResult

/-- The endpoints of the back end. -/
inductive Endpoint where
  | authRegister
  | authLogin
  | me
  | files
  | filesRegister
  | filesVerify
  deriving DecidableEq, Repr

/-- One request as it left the browser, with the `Authorization` header the request
interceptor of `api.js` attached, and whether it was answered successfully. -/
structure Exchange where
  endpoint : Endpoint
  authorization : Option String
  ok : Bool
  deriving DecidableEq, Repr

/-! ## State -/

/-- The `useState` cells of `App`, in source order, preceded by the browser side:
`token` is `localStorage["access_token"]` (`none` when the key is absent) and `sent`
is the ghost log of requests. -/
structure State where
  token : Option String
  sent : List Exchange
  page : Page
  user : Option MeBody
  loginEmail : String
  loginPassword : String
  loginError : String
  regEmail : String
  regPassword : String
  regError : String
  regSuccess : String
  credits : Option ℚ
  files : List FileRecord
  loadingFiles : Bool
  regFile : Option File
  regMetadata : String
  regResult : Option RegResult
  regLoading : Bool
  regErr : String
  verFile : Option File
  verResult : Option VerResult
  verLoading : Bool
  verErr : String
  deriving DecidableEq, Repr

/-- The state right after `App` is mounted, given what `localStorage` holds. -/
def initialState (stored : Option String) : State where
  token := stored
  sent := []
  page := .login
  user := none
  loginEmail := ""
  loginPassword := ""
  loginError := ""
  regEmail := ""
  regPassword := ""
  regError := ""
  regSuccess := ""
  credits := none
  files := []
  loadingFiles := false
  regFile := none
  regMetadata := ""
  regResult := none
  regLoading := false
  regErr := ""
  verFile := none
  verResult := none
  verLoading := false
  verErr := ""

/-! ## `api.js` -/

/-- The test `if (token)` on the result of `localStorage.getItem("access_token")`:
`null` and the empty string are falsy. -/
def tokenTruthy : Option String → Bool
  | some t => t != ""
  | none => false

/-- The request interceptor: `Authorization: Bearer <token>` when a token is there. -/
def authorizationHeader : Option String → Option String
  | some t => if t != "" then some ("Bearer " ++ t) else none
  | none => none

/-- Issue a request through `api`; `ok` is how it will be answered. -/
def send (endpoint : Endpoint) (ok : Bool) (s : State) : State :=
  { s with sent := s.sent ++ [⟨endpoint, authorizationHeader s.token, ok⟩] }

/-- The expression `e.response?.data?.detail || fallback`. -/
def detailOr (e : ApiError) (fallback : String) : String :=
  match e.detail with
  | some d => if d != "" then d else fallback
  | none => fallback

/-! ## `App.jsx`: data fetching -/

/-- `fetchFiles` (lines 60-70). -/
def fetchFiles (srv : Server) (s : State) : State :=
  let s := { s with loadingFiles := true }
  let s := send .files srv.files.isOk s
  let s :=
    match srv.files with
    | .ok data => { s with files := data }
    | .error _ => s
  { s with loadingFiles := false }

/-- `fetchMe` up to its first `await`: the request `GET /me` leaves. -/
def fetchMeRequest (srv : Server) (s : State) : State :=
  send .me srv.me.isOk s

/-- `fetchMe` after its first `await` (lines 49-57). -/
def fetchMeResume (srv : Server) (s : State) : State :=
  match srv.me with
  | .ok data => fetchFiles srv { s with user := some data, credits := data.credits }
  | .error _ => { s with token := none, user := none, page := .login }

/-- `fetchMe` (lines 46-58), awaited by its caller. -/
def fetchMe (srv : Server) (s : State) : State :=
  fetchMeResume srv (fetchMeRequest srv s)

/-- The start-up effect (lines 38-44).  `fetchMe()` is not awaited: it runs to its
first `await`, the effect then calls `setPage("dashboard")`, and the rest of `fetchMe`
runs once the answer is there. -/
def startupEffect (srv : Server) (s : State) : State :=
  if tokenTruthy s.token then
    let s := fetchMeRequest srv s
    let s := { s with page := .dashboard }
    fetchMeResume srv s
  else s

/-! ## `App.jsx`: handlers -/

/-- `handleLogin` (lines 72-93). -/
def handleLogin (srv : Server) (s : State) : State :=
  let s := { s with loginError := "" }
  let s := send .authLogin srv.authLogin.isOk s
  match srv.authLogin with
  | .ok data =>
    let s := { s with token := some data.access_token }
    let s := fetchMe srv s
    { s with page := .dashboard }
  | .error e =>
    { s with loginError := detailOr e "Login failed. Check email/password." }

/-- `handleRegister` (lines 95-112). -/
def handleRegister (srv : Server) (s : State) : State :=
  let s := { s with regError := "" }
  let s := { s with regSuccess := "" }
  let s := send .authRegister srv.authRegister.isOk s
  match srv.authRegister with
  | .ok _ =>
    let s := { s with regSuccess := "Account created. You can now login." }
    let s := { s with page := .login }
    { s with loginEmail := s.regEmail }
  | .error e => { s with regError := detailOr e "Failed to register." }

/-- `handleLogout` (lines 114-120). -/
def handleLogout (s : State) : State :=
  let s := { s with token := none }
  let s := { s with user := none }
  let s := { s with files := [] }
  let s := { s with credits := none }
  { s with page := .login }

/-- How many low bits a natural number has beyond the 53 bits of a double significand:
the number of halvings that bring `x` below `2 ^ 53` (`fuel` bounds the search). -/
def excessBits : Nat → Nat → Nat
  | 0, _ => 0
  | fuel + 1, x => if x < 2 ^ 53 then 0 else excessBits fuel (x / 2) + 1

/-- Round a natural number to 53 significant bits, to nearest and ties to even: the
rounding of IEEE-754 binary64 on a significand. -/
def roundSignificand (x : Nat) : Nat :=
  let e := excessBits x x
  let q := x / 2 ^ e
  let r := x % 2 ^ e
  if 2 * r < 2 ^ e then q * 2 ^ e
  else if 2 ^ e < 2 * r then (q + 1) * 2 ^ e
  else if q % 2 = 0 then q * 2 ^ e
  else (q + 1) * 2 ^ e

/-- The double nearest to the exact result `q` of adding or subtracting two doubles.
Such a `q` is `q.num / q.den` with `q.den` a power of two, so rounding the numerator to
53 significant bits rounds `q`.  (Neither overflow nor a subnormal result can arise
from `prev - 1`.) -/
def toDouble (q : ℚ) : ℚ :=
  if q.num < 0 then -(roundSignificand q.num.natAbs : ℚ) / q.den
  else (roundSignificand q.num.natAbs : ℚ) / q.den

/-- The updater `(prev) => (prev != null ? prev - 1 : prev)` of line 143; the
subtraction is that of JavaScript numbers, exact result rounded to a double. -/
def decrementCredits : Option ℚ → Option ℚ
  | some prev => some (toDouble (prev - 1))
  | none => none

/-- `handleRegisterFile` (lines 122-154). -/
def handleRegisterFile (srv : Server) (s : State) : State :=
  let s := { s with regErr := "" }
  let s := { s with regResult := none }
  match s.regFile with
  | none => { s with regErr := "Please choose a file." }
  | some _ =>
    let s := { s with regLoading := true }
    let s := send .filesRegister srv.filesRegister.isOk s
    let s :=
      match srv.filesRegister with
      | .ok data =>
        let s := { s with regResult := some data }
        let s := { s with credits := decrementCredits s.credits }
        fetchFiles srv s
      | .error e =>
        { s with regErr :=
            detailOr e "Failed to register file. Maybe no credits or blockchain error." }
    { s with regLoading := false }

/-- `handleVerifyFile` (lines 156-184). -/
def handleVerifyFile (srv : Server) (s : State) : State :=
  let s := { s with verErr := "" }
  let s := { s with verResult := none }
  match s.verFile with
  | none => { s with verErr := "Please choose a file." }
  | some _ =>
    let s := { s with verLoading := true }
    let s := send .filesVerify srv.filesVerify.isOk s
    let s :=
      match srv.filesVerify with
      | .ok data => { s with verResult := some data }
      | .error e => { s with verErr := detailOr e "Failed to verify file. Blockchain error." }
    { s with verLoading := false }

/-! ## `App.jsx`: rendering -/

/-- The comparison `credits <= 0` of lines 309 and 312: `null` is converted to `0`. -/
def creditsLeZero : Option ℚ → Bool
  | some n => decide (n ≤ 0)
  | none => true

/-- The `disabled` attribute of the register submit button (line 309). -/
def registerSubmitDisabled (s : State) : Bool :=
  s.regLoading || creditsLeZero s.credits

/-- What a panel shows: a heading, a paragraph `<p>label: value</p>`, or bare text. -/
inductive Node where
  | h4 (title : String)
  | p (label : String) (value : String)
  | text (value : String)
  deriving DecidableEq, Repr

/-- How React renders a value in child position: `undefined`, `null`, booleans and the
empty string show nothing; a number or a non-empty string shows as text. -/
def renderChild : JsVal → List Node
  | .undefined => []
  | .null => []
  | .bool _ => []
  | .num n => [.text (toString n)]
  | .str s => if s != "" then [.text s] else []

/-- The JSX idiom `value && children`: the children when `value` is truthy, otherwise
`value` itself in child position. -/
def jsxAnd (value : JsVal) (children : List Node) : List Node :=
  if value.truthy then children else renderChild value

/-- The idiom `text && <p>text</p>` on a string cell. -/
def whenNonEmpty (text : String) : Option String :=
  if text != "" then some text else none

/-- The children of the verification panel (lines 345-358). -/
def verificationPanel (r : VerResult) : List Node :=
  [ .h4 "Verification Result",
    .p "Filename" r.filename,
    .p "Hash" r.file_hash,
    .p "On-chain" (if r.on_chain.truthy then "Yes" else "No") ] ++
  jsxAnd r.on_chain
    [ .p "Match" (if r.match_.truthy then "✅ Match" else "❌ Mismatch"),
      .p "Owner" ((r.record.map (fun x => x.owner)).getD ""),
      .p "Registered at" ((r.record.map (fun x => x.timestamp_iso)).getD ""),
      .p "Metadata" ((r.record.map (fun x => x.metadata)).getD "") ]

/-- The "Register File" form (lines 290-317). -/
structure RegisterForm where
  error : Option String
  submitDisabled : Bool
  submitLabel : String
  noCreditsNotice : Option String
  deriving DecidableEq, Repr

/-- The "Verify File" form (lines 331-343). -/
structure VerifyForm where
  error : Option String
  submitDisabled : Bool
  submitLabel : String
  deriving DecidableEq, Repr

/-- The history column (lines 367-400). -/
inductive History where
  | loading
  | empty
  | table (rows : List FileRecord)
  deriving DecidableEq, Repr

/-- The dashboard (lines 270-405). -/
structure Dashboard where
  header : Option (String × Option ℚ)
  registerForm : RegisterForm
  registered : Option RegResult
  verifyForm : VerifyForm
  verification : Option (List Node)
  history : History
  deriving DecidableEq, Repr

/-- What `App` returns. -/
inductive View where
  | login (email : String) (password : String) (error : Option String)
  | register (email : String) (password : String) (error : Option String)
      (success : Option String)
  | dashboard (d : Dashboard)
  deriving DecidableEq, Repr

/-- The dashboard branch of the render. -/
def renderDashboard (s : State) : Dashboard where
  header := s.user.map (fun u => (u.email, s.credits))
  registerForm :=
    { error := whenNonEmpty s.regErr
      submitDisabled := registerSubmitDisabled s
      submitLabel := if s.regLoading then "Registering..." else "Register on Blockchain"
      noCreditsNotice :=
        if creditsLeZero s.credits then
          some "No credits left. Implement top-up/payment flow later."
        else none }
  registered := s.regResult
  verifyForm :=
    { error := whenNonEmpty s.verErr
      submitDisabled := s.verLoading
      submitLabel := if s.verLoading then "Verifying..." else "Verify Against Blockchain" }
  verification := s.verResult.map verificationPanel
  history :=
    if s.loadingFiles then .loading
    else if s.files.isEmpty then .empty
    else .table s.files

/-- The render of `App` (lines 186-405). -/
def render (s : State) : View :=
  match s.page with
  | .login => .login s.loginEmail s.loginPassword (whenNonEmpty s.loginError)
  | .register =>
    .register s.regEmail s.regPassword (whenNonEmpty s.regError) (whenNonEmpty s.regSuccess)
  | .dashboard => .dashboard (renderDashboard s)

/-! ## The register form as the user drives it -/

/-- A submission of the "Register File" form.  The form exists on the dashboard only,
and a browser submits no form whose submit button is disabled, so `handleRegisterFile`
runs only when the rendered button is enabled. -/
def submitRegisterForm (srv : Server) (s : State) : State :=
  match render s with
  | .dashboard d => if d.registerForm.submitDisabled then s else handleRegisterFile srv s
  | _ => s

/-- One registration attempt: the user puts `file` (or nothing) in the file input,
types `metadata`, and submits; the back end answers as `srv` says. -/
structure Attempt where
  file : Option File
  metadata : String
  srv : Server

/-- The two `onChange` handlers of the form (lines 295 and 303), then the submission. -/
def attempt (s : State) (a : Attempt) : State :=
  submitRegisterForm a.srv { s with regFile := a.file, regMetadata := a.metadata }

/-- A sequence of attempts, each run to completion before the next. -/
def runAttempts (s : State) (as : List Attempt) : State :=
  as.foldl attempt s

/-- The number of `POST /files/register` requests in a log that the back end accepted. -/
def registrations (log : List Exchange) : Nat :=
  log.countP (fun x => x.endpoint == .filesRegister && x.ok)

/-! ## Concrete data used by the worked instances -/

/-- A picked file. -/
def sampleFile : File := ⟨"contract.pdf", "v1"⟩

/-- The answer of the ledger to a registration of `sampleFile`. -/
def sampleReceipt : RegResult := ⟨"contract.pdf", "ab12", "0xfeed", 7⟩

/-- The history row the back end lists after that registration. -/
def sampleRow : FileRecord := ⟨1, "contract.pdf", "ab12", "0xfeed", 7, "contract v1.0", "2024-01-01"⟩

/-- A back end on which every request fails with `401` and no detail. -/
def expiredServer : Server where
  authRegister := .error ⟨some 401, none⟩
  authLogin := .error ⟨some 401, none⟩
  me := .error ⟨some 401, none⟩
  files := .error ⟨some 401, none⟩
  filesRegister := .error ⟨some 401, none⟩
  filesVerify := .error ⟨some 401, none⟩

/-- A back end that accepts everything; `GET /me` reports three credits. -/
def healthyServer : Server where
  authRegister := .ok ()
  authLogin := .ok ⟨"tok"⟩
  me := .ok ⟨"a@x.com", some 3⟩
  files := .ok [sampleRow]
  filesRegister := .ok sampleReceipt
  filesVerify := .ok ⟨"contract.pdf", "ab12", .bool true, .bool true, some ⟨"a@x.com", "2024-01-01", "contract v1.0"⟩⟩

/-- A dashboard session: token stored, three credits, `sampleFile` picked in both forms. -/
def sessionState : State :=
  { initialState (some "tok") with
    page := .dashboard
    user := some ⟨"a@x.com", some 3⟩
    credits := some 3
    files := [sampleRow]
    regFile := some sampleFile
    verFile := some sampleFile }

/-- A dashboard session with one credit left. -/
def lastCreditState : State := { sessionState with credits := some 1 }

/-- Three submissions of `sampleFile`: rejected, accepted, and one more click. -/
def threeAttempts : List Attempt :=
  [ ⟨some sampleFile, "draft", { healthyServer with filesRegister := .error ⟨some 400, some "chain down"⟩ }⟩,
    ⟨some sampleFile, "contract v1.0", healthyServer⟩,
    ⟨some sampleFile, "again", healthyServer⟩ ]

/-- A dashboard session whose credits are used up, a file picked and metadata typed. -/
def spentState : State := { sessionState with credits := some 0, regMetadata := "contract v1.0" }

/-- A dashboard session whose cached credits are `10 ^ 16`, a double above `2 ^ 53`. -/
def hugeCreditState : State := { sessionState with credits := some (10 ^ 16) }

/-- A dashboard session whose cached credits are the fraction `0.5`. -/
def halfCreditState : State := { sessionState with credits := some (1 / 2) }

/-- One submission of `sampleFile` that the back end accepts. -/
def oneAttempt : List Attempt := [⟨some sampleFile, "contract v1.0", healthyServer⟩]

/-- A back end that rejects the registration with the detail `"No credits"`. -/
def rejectingServer : Server :=
  { healthyServer with filesRegister := .error ⟨some 400, some "No credits"⟩ }

/-- A verification result whose `on_chain` is the falsy number `0`. -/
def zeroOnChain : VerResult :=
  ⟨"contract.pdf", "ab12", .num 0, .bool true, some ⟨"a@x.com", "2024-01-01", "contract v1.0"⟩⟩

/-- The session gate of the dashboard: `page = "dashboard"` only with a token stored. -/
def sessionGate (s : State) : Prop :=
  s.page = .dashboard → tokenTruthy s.token = true

/-- A back end that accepts the login and then fails `GET /me`. -/
def identityDownServer : Server := { healthyServer with me := .error ⟨some 401, none⟩ }

/-! ## Theorems -/

/-- Below `2 ^ 53` a natural number has no bits beyond a double significand. -/
theorem excessBits_small (fuel x : Nat) (h : x < 2 ^ 53) : excessBits fuel x = 0 := by
  cases fuel with
  | zero => rfl
  | succ k => simp only [excessBits, if_pos h]

/-- Natural numbers up to `2 ^ 53` are doubles: rounding leaves them as they are. -/
theorem roundSignificand_small (x : Nat) (h : x ≤ 2 ^ 53) : roundSignificand x = x := by
  rcases Nat.lt_or_ge x (2 ^ 53) with hlt | hge
  · simp [roundSignificand, excessBits_small x x hlt, Nat.mod_one]
  · have hx : x = 2 ^ 53 := Nat.le_antisymm h hge
    subst hx
    decide

/-- Integers of magnitude up to `2 ^ 53` are doubles. -/
theorem toDouble_intCast (j : Int) (h : j.natAbs ≤ 2 ^ 53) : toDouble (j : ℚ) = j := by
  rcases lt_or_le j 0 with hj | hj
  · have hcast : ((j.natAbs : ℤ) : ℚ) = ((-j : ℤ) : ℚ) := by
      congr 1
      omega
    push_cast at hcast
    simp [toDouble, roundSignificand_small _ h, hj, Nat.cast_natAbs, Int.cast_abs, hcast]
  · have hcast : ((j.natAbs : ℤ) : ℚ) = ((j : ℤ) : ℚ) := by
      congr 1
      omega
    push_cast at hcast
    simp [toDouble, roundSignificand_small _ h, not_lt.mpr hj, Nat.cast_natAbs, Int.cast_abs,
      hcast]

/-- On a natural number `toDouble` is the significand rounding. -/
theorem toDouble_natCast (x : Nat) : toDouble (x : ℚ) = roundSignificand x := by
  simp [toDouble]

/-- Subtracting one from an integer `n` with `-2 ^ 53 < n ≤ 2 ^ 53` is exact. -/
theorem toDouble_sub_one (n : Int) (hlo : -(2 : Int) ^ 53 < n) (hhi : n ≤ 2 ^ 53) :
    toDouble ((n : ℚ) - 1) = (n : ℚ) - 1 := by
  have h : (n : ℚ) - 1 = ((n - 1 : ℤ) : ℚ) := by push_cast; ring
  rw [h, toDouble_intCast]
  omega

/-- In double arithmetic `10 ^ 16 - 1` is `10 ^ 16`: the exact result lies halfway
between the doubles `10 ^ 16 - 2` and `10 ^ 16`, and the tie goes to the even
significand. -/
theorem toDouble_huge : toDouble ((10 : ℚ) ^ 16 - 1) = 10 ^ 16 := by
  have h : ((10 : ℚ) ^ 16 - 1) = ((9999999999999999 : Nat) : ℚ) := by norm_num
  have h2 : roundSignificand 9999999999999999 = 10000000000000000 := by decide
  rw [h, toDouble_natCast, h2]
  norm_num

/-- C1, counterexample.  The cache holds the integer `10 ^ 16`, a file is selected and
`POST /files/register` is accepted: line 143 computes `10 ^ 16 - 1` in double
arithmetic, which is `10 ^ 16` again, so the cache does not become `n - 1`. -/
theorem handleRegisterFile_success_huge_credits :
    hugeCreditState.regFile = some sampleFile ∧
    hugeCreditState.credits = some (10 ^ 16) ∧
    healthyServer.filesRegister = .ok sampleReceipt ∧
    (handleRegisterFile healthyServer hugeCreditState).credits = some (10 ^ 16) ∧
    (handleRegisterFile healthyServer hugeCreditState).credits ≠ some (10 ^ 16 - 1) := by
  have hrun : (handleRegisterFile healthyServer hugeCreditState).credits = some (10 ^ 16) := by
    simp [handleRegisterFile, hugeCreditState, sessionState, initialState, healthyServer,
      fetchFiles, send, decrementCredits, toDouble_huge]
  refine ⟨rfl, rfl, rfl, hrun, ?_⟩
  rw [hrun]
  norm_num

/-- C1, as amended.  With a file selected and `POST /files/register` accepted,
`handleRegisterFile` applies `prev -> prev - 1` to the cached credits once: an integer
`n` with `-2 ^ 53 < n ≤ 2 ^ 53` becomes `n - 1`, `null` stays `null`; `regResult`
becomes the body of the answer.  The answer to the following `GET /files` (the field
`srv.files`) is arbitrary. -/
theorem handleRegisterFile_success_credits (srv : Server) (s : State) (f : File)
    (data : RegResult) (hfile : s.regFile = some f) (hok : srv.filesRegister = .ok data) :
    (∀ n : Int, -(2 : Int) ^ 53 < n → n ≤ 2 ^ 53 → s.credits = some (n : ℚ) →
      (handleRegisterFile srv s).credits = some ((n : ℚ) - 1)) ∧
    (s.credits = none → (handleRegisterFile srv s).credits = none) ∧
    (handleRegisterFile srv s).regResult = some data := by
  refine ⟨?_, ?_, ?_⟩
  · intro n hlo hhi hn
    cases hsrv : srv.files <;>
      simp [handleRegisterFile, fetchFiles, send, decrementCredits, hfile, hok, hn, hsrv,
        toDouble_sub_one n hlo hhi]
  · intro hn
    cases hsrv : srv.files <;>
      simp [handleRegisterFile, fetchFiles, send, decrementCredits, hfile, hok, hn, hsrv]
  · cases hsrv : srv.files <;>
      simp [handleRegisterFile, fetchFiles, send, hfile, hok, hsrv]

/-- C1 as amended, worked instance: three credits, the registration is accepted and the
history refresh fails; the cache shows two credits and the receipt is stored. -/
theorem handleRegisterFile_success_credits_witness :
    (handleRegisterFile { healthyServer with files := .error ⟨none, none⟩ } sessionState).credits
        = some 2 ∧
    (handleRegisterFile { healthyServer with files := .error ⟨none, none⟩ } sessionState).regResult
        = some sampleReceipt :=
  have h := handleRegisterFile_success_credits
    { healthyServer with files := .error ⟨none, none⟩ } sessionState sampleFile sampleReceipt
    rfl rfl
  ⟨(h.1 3 (by norm_num) (by norm_num) (by norm_num [sessionState])).trans (by norm_num), h.2.2⟩

/-- C6. Whatever the state and the outcome (no file selected, `POST /files/verify`
accepted with any body, or rejected with any error), `handleVerifyFile` leaves
`credits`, `files`, `user`, `page` and the stored token as they were; the state after
the call differs from the state before it in `verErr`, `verResult`, `verLoading` and
the request log only. -/
theorem handleVerifyFile_frame (srv : Server) (s : State) :
    (handleVerifyFile srv s).credits = s.credits ∧
    (handleVerifyFile srv s).files = s.files ∧
    (handleVerifyFile srv s).user = s.user ∧
    (handleVerifyFile srv s).page = s.page ∧
    (handleVerifyFile srv s).token = s.token ∧
    handleVerifyFile srv s =
      { s with
        verErr := (handleVerifyFile srv s).verErr
        verResult := (handleVerifyFile srv s).verResult
        verLoading := (handleVerifyFile srv s).verLoading
        sent := (handleVerifyFile srv s).sent } := by
  cases hfile : s.verFile <;> cases hsrv : srv.filesVerify <;>
    simp [handleVerifyFile, send, hfile, hsrv]

/-- C8. `handleLogout` is a total function; from every state it yields a state with no
stored token, `user = null`, `files = []`, `credits = null` and `page = "login"`, and
running it twice gives the same state as running it once. -/
theorem handleLogout_clears_idempotent (s : State) :
    (handleLogout s).token = none ∧
    (handleLogout s).user = none ∧
    (handleLogout s).files = [] ∧
    (handleLogout s).credits = none ∧
    (handleLogout s).page = .login ∧
    handleLogout (handleLogout s) = handleLogout s := by
  simp [handleLogout]

/-- One attempt from an integer cache `m` with `0 ≤ m ≤ 2 ^ 53`: the cache stays such an
integer, and cache plus accepted registrations is unchanged. -/
theorem attempt_credits (s : State) (a : Attempt) (m : Int) (hm : 0 ≤ m) (hsafe : m ≤ 2 ^ 53)
    (hs : s.credits = some (m : ℚ)) :
    ∃ k : Int, (attempt s a).credits = some (k : ℚ) ∧ 0 ≤ k ∧ k ≤ 2 ^ 53 ∧
      k + registrations (attempt s a).sent = m + registrations s.sent := by
  unfold attempt submitRegisterForm render
  cases hpage : s.page
  case login => exact ⟨m, by simp [hpage, hs], hm, hsafe, by simp [hpage]⟩
  case register => exact ⟨m, by simp [hpage, hs], hm, hsafe, by simp [hpage]⟩
  case dashboard =>
    cases hload : s.regLoading
    case true =>
      exact ⟨m, by simp [hpage, hs, hload, renderDashboard, registerSubmitDisabled],
        hm, hsafe, by simp [hpage, hload, renderDashboard, registerSubmitDisabled]⟩
    case false =>
      by_cases hpos : m ≤ 0
      · exact ⟨m, by simp [hpage, hs, hload, hpos, renderDashboard, registerSubmitDisabled,
          creditsLeZero], hm, hsafe, by simp [hpage, hs, hload, hpos, renderDashboard,
          registerSubmitDisabled, creditsLeZero]⟩
      · cases hfile : a.file with
        | none =>
          exact ⟨m, by simp [hpage, hs, hload, hpos, hfile, renderDashboard,
            registerSubmitDisabled, creditsLeZero, handleRegisterFile], hm, hsafe,
            by simp [hpage, hs, hload, hpos, hfile, renderDashboard,
              registerSubmitDisabled, creditsLeZero, handleRegisterFile]⟩
        | some f =>
          cases hreg : a.srv.filesRegister with
          | error e =>
            exact ⟨m, by simp [hpage, hs, hload, hpos, hfile, hreg, renderDashboard,
              registerSubmitDisabled, creditsLeZero, handleRegisterFile, send], hm, hsafe,
              by simp [hpage, hs, hload, hpos, hfile, hreg, renderDashboard,
                registerSubmitDisabled, creditsLeZero, handleRegisterFile, send,
                registrations, Resp.isOk, List.countP_append]⟩
          | ok data =>
            have hdec : toDouble ((m : ℚ) - 1) = ((m - 1 : ℤ) : ℚ) := by
              rw [toDouble_sub_one m (by omega) hsafe]
              push_cast
              ring
            refine ⟨m - 1, ?_, by omega, by omega, ?_⟩
            · cases hfiles : a.srv.files <;>
                simp [hpage, hs, hload, hpos, hfile, hreg, hfiles, renderDashboard,
                  registerSubmitDisabled, creditsLeZero, handleRegisterFile, send,
                  fetchFiles, decrementCredits, hdec]
            · cases hfiles : a.srv.files <;>
                simp [hpage, hs, hload, hpos, hfile, hreg, hfiles, renderDashboard,
                  registerSubmitDisabled, creditsLeZero, handleRegisterFile, send,
                  fetchFiles, registrations, Resp.isOk, List.countP_append]

/-- A sequence of attempts from such a cache: as `attempt_credits`. -/
theorem runAttempts_credits (as : List Attempt) (s : State) (m : Int) (hm : 0 ≤ m)
    (hsafe : m ≤ 2 ^ 53) (hs : s.credits = some (m : ℚ)) :
    ∃ k : Int, (runAttempts s as).credits = some (k : ℚ) ∧ 0 ≤ k ∧ k ≤ 2 ^ 53 ∧
      k + registrations (runAttempts s as).sent = m + registrations s.sent := by
  induction as generalizing s m with
  | nil => exact ⟨m, hs, hm, hsafe, rfl⟩
  | cons a rest ih =>
    obtain ⟨k, hk, hk0, hk1, hsum⟩ := attempt_credits s a m hm hsafe hs
    obtain ⟨j, hj, hj0, hj1, hsum2⟩ := ih (attempt s a) k hk0 hk1 hk
    exact ⟨j, hj, hj0, hj1, by simp only [runAttempts, List.foldl_cons] at hsum2 ⊢; omega⟩

/-- On the dashboard with a file picked and nothing in flight, an accepted submission
decrements a cache that the gate lets through and logs one accepted registration. -/
theorem attempt_accepted (s : State) (a : Attempt) (f : File) (data : RegResult) (q : ℚ)
    (hpage : s.page = .dashboard) (hload : s.regLoading = false) (hs : s.credits = some q)
    (hq : 0 < q) (hfile : a.file = some f) (hreg : a.srv.filesRegister = .ok data) :
    (attempt s a).credits = some (toDouble (q - 1)) ∧
    registrations (attempt s a).sent = registrations s.sent + 1 := by
  constructor <;> cases hfiles : a.srv.files <;>
    simp [attempt, submitRegisterForm, render, renderDashboard, registerSubmitDisabled,
      creditsLeZero, handleRegisterFile, fetchFiles, send, decrementCredits, registrations,
      Resp.isOk, List.countP_append, hpage, hload, hs, not_le.mpr hq, hfile, hreg, hfiles]

/-- C2, counterexample.  Two runs of one accepted submission through the enabled form.
From the cached balance `10 ^ 16` the cache is `10 ^ 16` afterwards, not `10 ^ 16 - 1`:
the subtraction of line 143 is rounded to a double.  From the cached balance `0.5` the
gate `credits <= 0` lets the submission through and the cache becomes `-0.5`. -/
theorem runAttempts_unsafe_balance :
    ((0 : ℚ) ≤ 10 ^ 16 ∧ hugeCreditState.credits = some (10 ^ 16) ∧
      registrations (runAttempts hugeCreditState oneAttempt).sent
        = registrations hugeCreditState.sent + 1 ∧
      (runAttempts hugeCreditState oneAttempt).credits = some (10 ^ 16)) ∧
    ((0 : ℚ) ≤ 1 / 2 ∧ halfCreditState.credits = some (1 / 2) ∧
      registrations (runAttempts halfCreditState oneAttempt).sent
        = registrations halfCreditState.sent + 1 ∧
      (runAttempts halfCreditState oneAttempt).credits = some (-1 / 2)) := by
  have hhuge := attempt_accepted hugeCreditState ⟨some sampleFile, "contract v1.0", healthyServer⟩
    sampleFile sampleReceipt (10 ^ 16) rfl rfl rfl (by norm_num) rfl rfl
  have hhalf := attempt_accepted halfCreditState ⟨some sampleFile, "contract v1.0", healthyServer⟩
    sampleFile sampleReceipt (1 / 2) rfl rfl rfl (by norm_num) rfl rfl
  have hround : toDouble ((1 : ℚ) / 2 - 1) = -1 / 2 := by
    norm_num [toDouble, roundSignificand, excessBits]
  refine ⟨⟨by norm_num, rfl, hhuge.2, ?_⟩, ⟨by norm_num, rfl, hhalf.2, ?_⟩⟩
  · exact hhuge.1.trans (by rw [toDouble_huge])
  · exact hhalf.1.trans (by rw [hround])

/-- C2, as amended.  Registration attempts made through the form, each run to completion
before the next, starting from a cached integer balance `n` with `0 ≤ n ≤ 2 ^ 53` and
with no `/me` refresh in between: after the sequence the cached credits are `n` minus
the number of registrations the back end accepted during it, and after every attempt
of the sequence the cache is a non-negative integer. -/
theorem credits_after_attempts (n : Int) (hn : 0 ≤ n) (hsafe : n ≤ 2 ^ 53) (s : State)
    (hs : s.credits = some (n : ℚ)) (as : List Attempt) :
    (runAttempts s as).credits =
      some ((n : ℚ) - ((registrations (runAttempts s as).sent : ℚ) - registrations s.sent)) ∧
    ∀ i : Nat, ∃ k : Int, (runAttempts s (as.take i)).credits = some (k : ℚ) ∧ 0 ≤ k := by
  constructor
  · obtain ⟨k, hk, _, _, hsum⟩ := runAttempts_credits as s n hn hsafe hs
    rw [hk]
    congr 1
    have hq : (k : ℚ) + registrations (runAttempts s as).sent = n + registrations s.sent := by
      exact_mod_cast hsum
    linarith
  · intro i
    obtain ⟨k, hk, hk0, _, _⟩ := runAttempts_credits (as.take i) s n hn hsafe hs
    exact ⟨k, hk, hk0⟩

/-- C2 as amended, worked instance: one credit, then a rejected, an accepted and a
further submission; the theorem applies, one registration was accepted (the third click
did not reach the back end) and the cache ends at zero. -/
theorem credits_after_attempts_witness :
    (0 : Int) ≤ 1 ∧ (1 : Int) ≤ 2 ^ 53 ∧ lastCreditState.credits = some ((1 : Int) : ℚ) ∧
    registrations (runAttempts lastCreditState threeAttempts).sent = 1 ∧
    registrations lastCreditState.sent = 0 ∧
    (runAttempts lastCreditState threeAttempts).credits = some 0 ∧
    ((runAttempts lastCreditState threeAttempts).credits =
        some (((1 : Int) : ℚ) - ((registrations (runAttempts lastCreditState threeAttempts).sent : ℚ)
          - registrations lastCreditState.sent)) ∧
      ∀ i : Nat, ∃ k : Int,
        (runAttempts lastCreditState (threeAttempts.take i)).credits = some (k : ℚ) ∧ 0 ≤ k) :=
  ⟨by decide, by decide, by norm_num [lastCreditState],
    by norm_num [runAttempts, threeAttempts, attempt, submitRegisterForm, render,
      renderDashboard, registerSubmitDisabled, creditsLeZero, lastCreditState, sessionState,
      initialState, healthyServer, handleRegisterFile, fetchFiles, send, decrementCredits,
      registrations, Resp.isOk, toDouble, roundSignificand, excessBits,
      (by decide : Endpoint.files ≠ Endpoint.filesRegister)],
    by decide,
    by norm_num [runAttempts, threeAttempts, attempt, submitRegisterForm, render,
      renderDashboard, registerSubmitDisabled, creditsLeZero, lastCreditState, sessionState,
      initialState, healthyServer, handleRegisterFile, fetchFiles, send, decrementCredits,
      Resp.isOk, toDouble, roundSignificand, excessBits],
    credits_after_attempts 1 (by decide) (by decide) lastCreditState
      (by norm_num [lastCreditState]) threeAttempts⟩

/-- C5. On the dashboard with cached credits `0`, whatever else the state holds (a file
selected or not, any metadata): the register submit button is rendered disabled, the
"No credits left" notice is rendered, and a submission of the form leaves the state as
it is, so no request leaves and the cache stays `0`. -/
theorem zero_credits_gate (srv : Server) (s : State) (hpage : s.page = .dashboard)
    (hcredits : s.credits = some 0) :
    render s = .dashboard (renderDashboard s) ∧
    (renderDashboard s).registerForm.submitDisabled = true ∧
    (renderDashboard s).registerForm.noCreditsNotice =
      some "No credits left. Implement top-up/payment flow later." ∧
    submitRegisterForm srv s = s ∧
    (submitRegisterForm srv s).sent = s.sent ∧
    (submitRegisterForm srv s).credits = some 0 := by
  simp [render, renderDashboard, submitRegisterForm, registerSubmitDisabled, creditsLeZero,
    hpage, hcredits]

/-- C5, worked instance: with zero credits and a file picked, a submission against a
back end that would accept it sends nothing. -/
theorem zero_credits_gate_witness :
    spentState.page = .dashboard ∧ spentState.credits = some 0 ∧
    spentState.regFile = some sampleFile ∧
    (renderDashboard spentState).registerForm.submitDisabled = true ∧
    (submitRegisterForm healthyServer spentState).sent = [] ∧
    (submitRegisterForm healthyServer spentState).credits = some 0 :=
  have h := zero_credits_gate healthyServer spentState rfl rfl
  ⟨rfl, rfl, rfl, h.2.1, h.2.2.2.2.1, h.2.2.2.2.2⟩

/-- C9. The start-up effect, run on the freshly mounted app.
* No access token stored: no request is sent and `page` stays `"login"`.
* A token is stored and `GET /me` fails (the request is in the log, rejected): once the
  effect and the `fetchMe` it launched are done the token is removed, `user = null` and
  `page = "login"`.
* A token is stored and `GET /me` succeeds with body `b`: `page = "dashboard"`, `user`
  is `b` and `credits` is `b.credits`.
* The request does go out, carrying the token, for every non-empty stored token; the
  empty string fails the test `if (token)` and the effect then does nothing. -/
theorem startupEffect_restore (srv : Server) (stored : Option String) :
    (stored = none →
      (startupEffect srv (initialState stored)).sent = [] ∧
      (startupEffect srv (initialState stored)).page = .login) ∧
    (∀ (t : String) (hdr : Option String), stored = some t →
      ⟨.me, hdr, false⟩ ∈ (startupEffect srv (initialState stored)).sent →
      (startupEffect srv (initialState stored)).token = none ∧
      (startupEffect srv (initialState stored)).user = none ∧
      (startupEffect srv (initialState stored)).page = .login) ∧
    (∀ (t : String) (hdr : Option String) (b : MeBody), stored = some t →
      ⟨.me, hdr, true⟩ ∈ (startupEffect srv (initialState stored)).sent → srv.me = .ok b →
      (startupEffect srv (initialState stored)).page = .dashboard ∧
      (startupEffect srv (initialState stored)).user = some b ∧
      (startupEffect srv (initialState stored)).credits = b.credits) ∧
    (∀ t : String, stored = some t →
      (t ≠ "" →
        ⟨.me, some ("Bearer " ++ t), srv.me.isOk⟩ ∈
          (startupEffect srv (initialState stored)).sent) ∧
      (t = "" → startupEffect srv (initialState stored) = initialState stored)) := by
  refine ⟨?_, ?_, ?_, ?_⟩
  · intro h
    simp [startupEffect, tokenTruthy, initialState, h]
  · intro t hdr ht hsent
    by_cases hne : t = ""
    · simp [startupEffect, tokenTruthy, initialState, ht, hne] at hsent
    · cases hme : srv.me with
      | error e =>
        simp [startupEffect, tokenTruthy, fetchMeRequest, fetchMeResume, send, initialState,
          ht, hne, hme]
      | ok b =>
        cases hfiles : srv.files <;>
          simp [startupEffect, tokenTruthy, fetchMeRequest, fetchMeResume, send, fetchFiles,
            initialState, Resp.isOk, ht, hne, hme, hfiles] at hsent
  · intro t hdr b ht hsent hme
    by_cases hne : t = ""
    · simp [startupEffect, tokenTruthy, initialState, ht, hne] at hsent
    · cases hfiles : srv.files <;>
        simp [startupEffect, tokenTruthy, fetchMeRequest, fetchMeResume, send, fetchFiles,
          initialState, ht, hne, hme, hfiles]
  · intro t ht
    constructor
    · intro hne
      cases hme : srv.me with
      | error e =>
        simp [startupEffect, tokenTruthy, fetchMeRequest, fetchMeResume, send, initialState,
          authorizationHeader, Resp.isOk, ht, hne, hme]
      | ok b =>
        cases hfiles : srv.files <;>
          simp [startupEffect, tokenTruthy, fetchMeRequest, fetchMeResume, send, fetchFiles,
            initialState, authorizationHeader, Resp.isOk, ht, hne, hme, hfiles]
    · intro he
      simp [startupEffect, tokenTruthy, initialState, ht, he]

/-- C9, worked instance: mounted with the token `"tok"` stored.  Against a back end that
answers `401` the app ends on the login page without token; against a healthy one it
ends on the dashboard with the three credits `GET /me` reported. -/
theorem startupEffect_restore_witness :
    (startupEffect expiredServer (initialState (some "tok"))).sent =
      [⟨.me, some "Bearer tok", false⟩] ∧
    (startupEffect expiredServer (initialState (some "tok"))).token = none ∧
    (startupEffect expiredServer (initialState (some "tok"))).page = .login ∧
    (startupEffect healthyServer (initialState (some "tok"))).page = .dashboard ∧
    (startupEffect healthyServer (initialState (some "tok"))).credits = some 3 :=
  have hbad := (startupEffect_restore expiredServer (some "tok")).2.1
    "tok" (some "Bearer tok") rfl (by decide)
  have hgood := (startupEffect_restore healthyServer (some "tok")).2.2.1
    "tok" (some "Bearer tok") ⟨"a@x.com", some 3⟩ rfl (by decide) rfl
  ⟨by decide, hbad.1, hbad.2.2, hgood.1, hgood.2.2⟩

/-- C3, counterexample.  A dashboard session with a file picked; `POST /files/register`
is answered `401`.  After `handleRegisterFile` the token is still stored and `page`,
`user`, `credits` and `files` are what they were: nothing was cleared. -/
theorem handleRegisterFile_401_keeps_session :
    sessionState.regFile = some sampleFile ∧
    expiredServer.filesRegister = .error ⟨some 401, none⟩ ∧
    (handleRegisterFile expiredServer sessionState).sent = [⟨.filesRegister, some "Bearer tok", false⟩] ∧
    (handleRegisterFile expiredServer sessionState).token = some "tok" ∧
    (handleRegisterFile expiredServer sessionState).page = .dashboard ∧
    (handleRegisterFile expiredServer sessionState).user = some ⟨"a@x.com", some 3⟩ ∧
    (handleRegisterFile expiredServer sessionState).credits = some 3 ∧
    (handleRegisterFile expiredServer sessionState).files = [sampleRow] := by
  decide

/-- C3, as amended.  A request answered with `401` (or rejected with any other error):
* `GET /me` in `fetchMe`: the stored token is removed, `user = null` and
  `page = "login"`; `credits` and `files` keep their values;
* `POST /files/register` in `handleRegisterFile`, `POST /files/verify` in
  `handleVerifyFile`, `GET /files` in `fetchFiles`: the stored token, `page`, `user`,
  `credits` and `files` all keep their values. -/
theorem rejected_request_session_effect (srv : Server) (s : State) (e : ApiError) :
    (srv.me = .error e →
      (fetchMe srv s).token = none ∧ (fetchMe srv s).user = none ∧
      (fetchMe srv s).page = .login ∧
      (fetchMe srv s).credits = s.credits ∧ (fetchMe srv s).files = s.files) ∧
    (srv.filesRegister = .error e →
      (handleRegisterFile srv s).token = s.token ∧ (handleRegisterFile srv s).page = s.page ∧
      (handleRegisterFile srv s).user = s.user ∧
      (handleRegisterFile srv s).credits = s.credits ∧
      (handleRegisterFile srv s).files = s.files) ∧
    (srv.filesVerify = .error e →
      (handleVerifyFile srv s).token = s.token ∧ (handleVerifyFile srv s).page = s.page ∧
      (handleVerifyFile srv s).user = s.user ∧
      (handleVerifyFile srv s).credits = s.credits ∧
      (handleVerifyFile srv s).files = s.files) ∧
    (srv.files = .error e →
      (fetchFiles srv s).token = s.token ∧ (fetchFiles srv s).page = s.page ∧
      (fetchFiles srv s).user = s.user ∧
      (fetchFiles srv s).credits = s.credits ∧
      (fetchFiles srv s).files = s.files) := by
  refine ⟨?_, ?_, ?_, ?_⟩
  · intro h
    simp [fetchMe, fetchMeRequest, fetchMeResume, send, h]
  · intro h
    cases hfile : s.regFile <;> simp [handleRegisterFile, send, h, hfile]
  · intro h
    cases hfile : s.verFile <;> simp [handleVerifyFile, send, h, hfile]
  · intro h
    simp [fetchFiles, send, h]

/-- C3 as amended, worked instance: the `401` back end against the dashboard session.
`fetchMe` drops the token and goes to the login page with the three credits still
cached; `handleVerifyFile` keeps the token and the page. -/
theorem rejected_request_session_effect_witness :
    (fetchMe expiredServer sessionState).token = none ∧
    (fetchMe expiredServer sessionState).page = .login ∧
    (fetchMe expiredServer sessionState).credits = some 3 ∧
    (handleVerifyFile expiredServer sessionState).token = some "tok" ∧
    (handleVerifyFile expiredServer sessionState).page = .dashboard :=
  have h := rejected_request_session_effect expiredServer sessionState ⟨some 401, none⟩
  ⟨(h.1 rfl).1, (h.1 rfl).2.2.1, (h.1 rfl).2.2.2.1, (h.2.2.1 rfl).1, (h.2.2.1 rfl).2.1⟩

/-- C4.  A failed registration: the form was submitted through its enabled button
(line 309), and either no file is selected or `POST /files/register` is rejected with
any error.  `handleRegisterFile` leaves `credits`, `files`, `user`, `page` and the
stored token as they were; besides the request log it only sets `regErr` to a non-empty
message, `regResult` to `null`, and ends with `regLoading = false`.  The message is
`"Please choose a file."` when no file is selected (and then nothing is sent), and
otherwise the `detail` of the error when present and non-empty, else the fixed
fallback. -/
theorem handleRegisterFile_failure (srv : Server) (s : State)
    (hgate : registerSubmitDisabled s = false)
    (hfail : s.regFile = none ∨ ∃ e, srv.filesRegister = .error e) :
    ((handleRegisterFile srv s).credits = s.credits ∧
      (handleRegisterFile srv s).files = s.files ∧
      (handleRegisterFile srv s).user = s.user ∧
      (handleRegisterFile srv s).page = s.page ∧
      (handleRegisterFile srv s).token = s.token) ∧
    handleRegisterFile srv s =
      { s with
        regErr := (handleRegisterFile srv s).regErr
        regResult := none
        regLoading := false
        sent := (handleRegisterFile srv s).sent } ∧
    (handleRegisterFile srv s).regErr ≠ "" ∧
    (handleRegisterFile srv s).regResult = none ∧
    (handleRegisterFile srv s).regLoading = false ∧
    (s.regFile = none →
      (handleRegisterFile srv s).regErr = "Please choose a file." ∧
      (handleRegisterFile srv s).sent = s.sent) ∧
    (∀ (f : File) (e : ApiError), s.regFile = some f → srv.filesRegister = .error e →
      (∀ d : String, e.detail = some d → d ≠ "" → (handleRegisterFile srv s).regErr = d) ∧
      ((e.detail = none ∨ e.detail = some "") →
        (handleRegisterFile srv s).regErr =
          "Failed to register file. Maybe no credits or blockchain error.")) := by
  have hload : s.regLoading = false := by
    simp only [registerSubmitDisabled, Bool.or_eq_false_iff] at hgate
    exact hgate.1
  cases hfile : s.regFile with
  | none => simp [handleRegisterFile, hfile, hload]
  | some f =>
    rcases hfail with hnone | ⟨e, herr⟩
    · simp [hfile] at hnone
    · refine ⟨?_, ?_, ?_, ?_, ?_, ?_, ?_⟩
      · simp [handleRegisterFile, send, hfile, herr]
      · simp [handleRegisterFile, send, hfile, herr]
      · cases hd : e.detail with
        | none => simp [handleRegisterFile, send, hfile, herr, detailOr, hd]
        | some d =>
          by_cases hne : d = "" <;>
            simp [handleRegisterFile, send, hfile, herr, detailOr, hd, hne]
      · simp [handleRegisterFile, send, hfile, herr]
      · simp [handleRegisterFile, send, hfile, herr]
      · intro h
        simp at h
      · intro f2 e2 _ herr2
        have he : e2 = e := by
          rw [herr] at herr2
          exact (Resp.error.inj herr2).symm
        subst he
        constructor
        · intro d hd hne
          simp [handleRegisterFile, send, hfile, herr, detailOr, hd, hne]
        · rintro (hd | hd) <;> simp [handleRegisterFile, send, hfile, herr, detailOr, hd]

/-- C4, worked instance: the dashboard session has three credits and nothing in flight,
so the button is enabled.  With no file picked the call only reports the missing file
and sends nothing; with `sampleFile` picked and the back end rejecting with detail
`"No credits"`, that detail is shown, three credits stay cached and `regLoading` ends
`false`. -/
theorem handleRegisterFile_failure_witness :
    registerSubmitDisabled sessionState = false ∧
    (handleRegisterFile healthyServer { sessionState with regFile := none }).regErr
      = "Please choose a file." ∧
    (handleRegisterFile healthyServer { sessionState with regFile := none }).sent = [] ∧
    (handleRegisterFile healthyServer { sessionState with regFile := none }).regLoading = false ∧
    (handleRegisterFile rejectingServer sessionState).regErr = "No credits" ∧
    (handleRegisterFile rejectingServer sessionState).credits = some 3 ∧
    (handleRegisterFile rejectingServer sessionState).regLoading = false :=
  have h1 := handleRegisterFile_failure healthyServer { sessionState with regFile := none }
    (by decide) (Or.inl rfl)
  have h2 := handleRegisterFile_failure rejectingServer sessionState
    (by decide) (Or.inr ⟨⟨some 400, some "No credits"⟩, rfl⟩)
  ⟨by decide, (h1.2.2.2.2.2.1 rfl).1, (h1.2.2.2.2.2.1 rfl).2, h1.2.2.2.2.1,
    (h2.2.2.2.2.2.2 sampleFile ⟨some 400, some "No credits"⟩ rfl rfl).1 "No credits" rfl
      (by decide),
    h2.1.1, h2.2.2.2.2.1⟩

/-- C7, counterexample.  `on_chain = 0` is falsy, and the panel shows a fifth child
after the "On-chain: No" line: the expression `verResult.on_chain && (...)` of line 350
evaluates to `0`, which React renders as the text `0`. -/
theorem verificationPanel_zero_on_chain :
    zeroOnChain.on_chain.truthy = false ∧
    verificationPanel zeroOnChain =
      [ .h4 "Verification Result", .p "Filename" "contract.pdf", .p "Hash" "ab12",
        .p "On-chain" "No", .text "0" ] := by
  decide

/-- C7, as amended.  Whatever `match` and `record` contain:
* the Match, Owner, Registered-at and Metadata lines are in the panel exactly when
  `on_chain` is truthy, so none of them is there when `on_chain` is falsy;
* when `on_chain` is `false`, `null`, `undefined` or the empty string, the panel shows
  the heading, filename, hash and "On-chain: No" and nothing else;
* when `on_chain` is truthy the panel shows "On-chain: Yes" followed by the four lines. -/
theorem verificationPanel_on_chain (r : VerResult) :
    (((∃ v, Node.p "Match" v ∈ verificationPanel r) ↔ r.on_chain.truthy = true) ∧
      ((∃ v, Node.p "Owner" v ∈ verificationPanel r) ↔ r.on_chain.truthy = true) ∧
      ((∃ v, Node.p "Registered at" v ∈ verificationPanel r) ↔ r.on_chain.truthy = true) ∧
      ((∃ v, Node.p "Metadata" v ∈ verificationPanel r) ↔ r.on_chain.truthy = true)) ∧
    (r.on_chain.truthy = false → (∀ n : Int, r.on_chain ≠ .num n) →
      verificationPanel r =
        [ .h4 "Verification Result", .p "Filename" r.filename, .p "Hash" r.file_hash,
          .p "On-chain" "No" ]) ∧
    (r.on_chain.truthy = true →
      verificationPanel r =
        [ .h4 "Verification Result", .p "Filename" r.filename, .p "Hash" r.file_hash,
          .p "On-chain" "Yes",
          .p "Match" (if r.match_.truthy then "✅ Match" else "❌ Mismatch"),
          .p "Owner" ((r.record.map (fun x => x.owner)).getD ""),
          .p "Registered at" ((r.record.map (fun x => x.timestamp_iso)).getD ""),
          .p "Metadata" ((r.record.map (fun x => x.metadata)).getD "") ]) := by
  cases hoc : r.on_chain with
  | undefined => simp [verificationPanel, jsxAnd, renderChild, JsVal.truthy, hoc]
  | null => simp [verificationPanel, jsxAnd, renderChild, JsVal.truthy, hoc]
  | bool b => cases b <;> simp [verificationPanel, jsxAnd, renderChild, JsVal.truthy, hoc]
  | num n =>
    by_cases hn : n = 0 <;> simp [verificationPanel, jsxAnd, renderChild, JsVal.truthy, hoc, hn]
  | str t =>
    by_cases ht : t = "" <;> simp [verificationPanel, jsxAnd, renderChild, JsVal.truthy, hoc, ht]

/-- C7 as amended, worked instance: a result with `on_chain = false` that nevertheless
carries `match = true` and a record shows three lines under the heading. -/
theorem verificationPanel_on_chain_witness :
    verificationPanel
        ⟨"contract.pdf", "ab12", .bool false, .bool true, some ⟨"a@x.com", "2024-01-01", "contract v1.0"⟩⟩ =
      [ .h4 "Verification Result", .p "Filename" "contract.pdf", .p "Hash" "ab12",
        .p "On-chain" "No" ] :=
  (verificationPanel_on_chain
    ⟨"contract.pdf", "ab12", .bool false, .bool true, some ⟨"a@x.com", "2024-01-01", "contract v1.0"⟩⟩).2.1
    rfl (fun _ h => JsVal.noConfusion h)

/-- C10, the failing run.  From the freshly mounted app without token, `handleLogin`
against a back end that accepts `POST /auth/login` and fails `GET /me`: `fetchMe`
removes the token and sets `page` to `"login"`, then line 86 sets `page` to
`"dashboard"`.  The handler ends on the dashboard with no token, no user and no
credits. -/
theorem handleLogin_dashboard_without_token :
    (handleLogin identityDownServer (initialState none)).sent =
      [⟨.authLogin, none, true⟩, ⟨.me, some "Bearer tok", false⟩] ∧
    (handleLogin identityDownServer (initialState none)).page = .dashboard ∧
    (handleLogin identityDownServer (initialState none)).token = none ∧
    (handleLogin identityDownServer (initialState none)).user = none ∧
    (handleLogin identityDownServer (initialState none)).credits = none := by
  decide

/-- Every other handler keeps the session gate, and so does `handleLogin` unless
`POST /auth/login` succeeds with a non-empty token and `GET /me` then fails. -/
theorem sessionGate_preserved (srv : Server) (s : State) (h : sessionGate s) :
    sessionGate (startupEffect srv s) ∧
    sessionGate (handleRegister srv s) ∧
    sessionGate (handleLogout s) ∧
    sessionGate (handleRegisterFile srv s) ∧
    sessionGate (handleVerifyFile srv s) ∧
    ((∀ b e, srv.authLogin = .ok b → srv.me = .error e → False) →
      (∀ b, srv.authLogin = .ok b → b.access_token ≠ "") →
      sessionGate (handleLogin srv s)) := by
  unfold sessionGate at *
  refine ⟨?_, ?_, ?_, ?_, ?_, ?_⟩
  · by_cases ht : tokenTruthy s.token = true
    · cases hme : srv.me <;> cases hfiles : srv.files <;>
        simp [startupEffect, fetchMeRequest, fetchMeResume, fetchFiles, send, ht, hme, hfiles]
    · simpa [startupEffect, ht] using h
  · cases hreg : srv.authRegister <;> simp [handleRegister, send, hreg]
    simpa using h
  · simp [handleLogout]
  · cases hfile : s.regFile <;> cases hreg : srv.filesRegister <;> cases hfiles : srv.files <;>
      simpa [handleRegisterFile, fetchFiles, send, hfile, hreg, hfiles] using h
  · cases hfile : s.verFile <;> cases hver : srv.filesVerify <;>
      simpa [handleVerifyFile, send, hfile, hver] using h
  · intro hme htok
    cases hlogin : srv.authLogin with
    | error e => simpa [handleLogin, send, hlogin] using h
    | ok b =>
      cases hm : srv.me with
      | error e => exact absurd (hme b e hlogin hm) id
      | ok body =>
        have := htok b hlogin
        cases hfiles : srv.files <;>
          simp [handleLogin, fetchMe, fetchMeRequest, fetchMeResume, fetchFiles, send,
            hlogin, hm, hfiles, tokenTruthy, this]

end FileRegistry
